import Mathlib

/-!
Verification of the EcoStruxure Modbus core, shallowly embedded from the
TypeScript source: the connection pool of `ModbusConnectionManager`
(reference counting, reconnect state, per-connection operation queue and
drain loop), the register codec (`readAllRegisters`, `readDeviceType`,
`readDeviceName`), and the discovery scanner of the PowerTag driver
(`scanSlaveRange`, `discoverDevices`).
-/

namespace EcoStruxure

/-- Error taxonomy of the connection manager and codec (spec section 7).
The source throws plain `Error` objects; each constructor here stands for
one of the distinct error messages / failure kinds the source produces. -/
inductive MbError where
  | notConnected
  | connectionClosed
  | operationTimeout
  | connectTimeout
  | connectError
  | managerDestroyed
  | protocolError
  deriving Repr, DecidableEq

/-- Connect timeout constant (ms) from ModbusConnectionManager. -/
def CONNECT_TIMEOUT : Nat := 10000

/-- Reconnect delay constant (ms) from ModbusConnectionManager. -/
def RECONNECT_DELAY : Nat := 30000

/-- Per-operation timeout constant (ms) from ModbusConnectionManager. -/
def OPERATION_TIMEOUT : Nat := 5000

/-- State of one `ConnectionEntry` of the pool, for a single (host, port)
key.  The socket/client handles are not represented; the queue holds the
identifiers of pending queued operations.  `refCount` is carried as an
integer so that the no-negative-count property is a statement, not a
typing artifact. -/
structure ConnectionEntry where
  refCount : Int
  connected : Bool
  connecting : Bool
  queue : List Nat
  processing : Bool
  deriving Repr, DecidableEq

/-- A fresh entry as built by `acquire` when the key is absent. -/
def freshEntry : ConnectionEntry :=
  { refCount := 0, connected := false, connecting := false, queue := [], processing := false }

/-- Pool state for one key: `none` when no ConnectionEntry exists. -/
abbrev Pool := Option ConnectionEntry

/-- Reference count seen from outside: 0 when no entry exists. -/
def poolRefCount (p : Pool) : Int :=
  match p with
  | none => 0
  | some e => e.refCount

/-- One `acquire(host, port)` call, embedded sequentially.  The entry is
looked up or created, the reference count is incremented, and then (when
disconnected and no attempt is in flight) a connect attempt runs whose
outcome `cres` is a parameter of the step (success, `ConnectTimeout`, or
`ConnectError`).  Both outcomes of `connect` clear the in-flight marker
before `acquire` returns, so `connecting` ends false either way. -/
def acquireStep (p : Pool) (cres : Except MbError Unit) : Pool × Except MbError Unit :=
  let e0 := match p with
    | some e => e
    | none => freshEntry
  let e1 := { e0 with refCount := e0.refCount + 1 }
  if !e1.connected && !e1.connecting then
    match cres with
    | .ok () => (some { e1 with connected := true, connecting := false }, .ok ())
    | .error err => (some { e1 with connecting := false }, .error err)
  else
    (some e1, .ok ())

/-- One `release(host, port)` call: no-op on a missing entry, otherwise
decrement; at 0 or below the socket is destroyed and the entry removed. -/
def releaseStep (p : Pool) : Pool :=
  match p with
  | none => none
  | some e =>
    let e1 := { e with refCount := e.refCount - 1 }
    if e1.refCount ≤ 0 then none else some e1

/-- An event of a pool trace on one key: an acquire whose connect attempt
has outcome `cres`, or a release. -/
inductive PoolEvent where
  | acq (cres : Except MbError Unit)
  | rel
  deriving Repr

/-- Apply one pool event. -/
def poolStep (p : Pool) : PoolEvent → Pool
  | .acq cres => (acquireStep p cres).1
  | .rel => releaseStep p

/-- Run a finite sequence of acquire/release events from the empty pool. -/
def runPool (evs : List PoolEvent) : Pool :=
  evs.foldl poolStep none

/-- One `execute(host, port, slaveId, operation)` call, at the pool-state
level: missing entry fails; a disconnected entry first awaits a reconnect
attempt with outcome `reconnect` and fails `NotConnected` when it does not
leave the entry connected; otherwise the operation is appended to the
entry's queue.  The settling of the operation itself is the drain loop's
business and is modelled separately. -/
def executeStep (p : Pool) (reconnect : Except MbError Unit) (opId : Nat) :
    Pool × Except MbError Unit :=
  match p with
  | none => (none, .error .notConnected)
  | some e =>
    if e.connected then
      (some { e with queue := e.queue ++ [opId] }, .ok ())
    else
      match reconnect with
      | .ok () => (some { e with connected := true, connecting := false, queue := e.queue ++ [opId] }, .ok ())
      | .error _ => (some e, .error .notConnected)

/-- The socket `close` handler of `setupSocketHandlers`: mark
disconnected, clear the in-flight marker, reject every queued operation
with `ConnectionClosed`, clear the queue, stop draining, and register the
reconnect timer exactly when the reference count is still positive.
Returns the new entry state, the list of (operation, rejection) pairs
delivered to queued callers, and whether a reconnect was scheduled. -/
def closeEvent (e : ConnectionEntry) : ConnectionEntry × List (Nat × MbError) × Bool :=
  let rejected := e.queue.map (fun opId => (opId, MbError.connectionClosed))
  let e1 : ConnectionEntry :=
    { e with connected := false, connecting := false, queue := [], processing := false }
  (e1, rejected, decide (0 < e.refCount))

/- ### Pool invariant -/

/-- Invariant: whenever an entry exists its reference count is positive. -/
def PoolInv (p : Pool) : Prop :=
  ∀ e, p = some e → 0 < e.refCount

theorem poolStep_inv (p : Pool) (hp : PoolInv p) (ev : PoolEvent) : PoolInv (poolStep p ev) := by
  cases ev with
  | acq cres =>
    cases p with
    | none =>
      cases cres with
      | ok u =>
        cases u
        intro e he
        simp [poolStep, acquireStep, freshEntry] at he
        subst he
        norm_num
      | error err =>
        intro e he
        simp [poolStep, acquireStep, freshEntry] at he
        subst he
        norm_num
    | some e0 =>
      have h0 : 0 < e0.refCount := hp e0 rfl
      intro e he
      simp only [poolStep, acquireStep] at he
      by_cases hc : (!({ e0 with refCount := e0.refCount + 1 } : ConnectionEntry).connected
          && !({ e0 with refCount := e0.refCount + 1 } : ConnectionEntry).connecting) = true
      · rw [if_pos hc] at he
        cases cres with
        | ok u =>
          simp at he
          subst he
          simp
          omega
        | error err =>
          simp at he
          subst he
          simp
          omega
      · rw [if_neg hc] at he
        simp at he
        subst he
        simp
        omega
  | rel =>
    cases p with
    | none => intro e he; simp [poolStep, releaseStep] at he
    | some e0 =>
      intro e he
      simp only [poolStep, releaseStep] at he
      by_cases hle : e0.refCount - 1 ≤ 0
      · simp [hle] at he
      · simp [hle] at he
        subst he
        simp
        omega

theorem runPool_inv (evs : List PoolEvent) : PoolInv (runPool evs) := by
  have h : ∀ (l : List PoolEvent) (p : Pool), PoolInv p → PoolInv (l.foldl poolStep p) := by
    intro l
    induction l with
    | nil => intro p hp; simpa using hp
    | cons ev rest ih =>
      intro p hp
      exact ih (poolStep p ev) (poolStep_inv p hp ev)
  exact h evs none (by intro e he; cases he)

/-- C1: for every finite sequence of acquire(host, port) and
release(host, port) calls on the same key, with connect attempts possibly
succeeding or failing, the ConnectionEntry's reference count never goes
negative, and a ConnectionEntry exists in the pool for that key if and
only if its reference count is > 0. -/
theorem pool_refCount_nonneg_exists_iff_pos (evs : List PoolEvent) :
    0 ≤ poolRefCount (runPool evs) ∧
    ((runPool evs).isSome ↔ 0 < poolRefCount (runPool evs)) := by
  have hinv := runPool_inv evs
  cases hp : runPool evs with
  | none => simp [poolRefCount]
  | some e =>
    have he : 0 < e.refCount := hinv e hp
    simp [poolRefCount]
    omega

/-- C2: for every (host, port) key whose reference count is 0 (never
acquired, or fully released so the entry was removed), any execute call
fails with NotConnected and does not change the pool (in particular the
operation is never enqueued or run). -/
theorem execute_refCount_zero_notConnected (evs : List PoolEvent)
    (reconnect : Except MbError Unit) (opId : Nat)
    (h : poolRefCount (runPool evs) = 0) :
    executeStep (runPool evs) reconnect opId = (runPool evs, .error .notConnected) := by
  have hinv := runPool_inv evs
  cases hp : runPool evs with
  | none => simp [executeStep]
  | some e =>
    have he : 0 < e.refCount := hinv e hp
    rw [hp] at h
    simp [poolRefCount] at h
    omega

/-- Witness for C2 at the empty trace: a key never acquired has reference
count 0 and execute on it fails NotConnected without touching the pool. -/
theorem execute_refCount_zero_notConnected_witness :
    executeStep (runPool []) (.ok ()) 7 = (runPool [], .error .notConnected) :=
  execute_refCount_zero_notConnected [] (.ok ()) 7 (by rfl)

/-- C5: on a transport close event, in every entry state: the entry is
marked disconnected, the in-flight connect marker is cleared, every
operation then in the queue is rejected with ConnectionClosed, the queue
becomes empty, draining stops, and a reconnect attempt is scheduled after
the fixed 30-second delay if and only if the reference count is still
positive and no connect attempt is pending at scheduling time. -/
theorem closeEvent_broadcast_and_reconnect (e : ConnectionEntry) :
    (closeEvent e).1.connected = false ∧
    (closeEvent e).1.connecting = false ∧
    (closeEvent e).1.queue = [] ∧
    (closeEvent e).1.processing = false ∧
    (closeEvent e).2.1 = e.queue.map (fun opId => (opId, MbError.connectionClosed)) ∧
    ((closeEvent e).2.2 = true ↔ (0 < e.refCount ∧ (closeEvent e).1.connecting = false)) ∧
    RECONNECT_DELAY = 30000 := by
  simp [closeEvent, RECONNECT_DELAY]

/-- C10: if an acquire call fails (connect timeout or connect error), the
pool state has still been changed: the reference count was incremented
before the connect attempt, the entry remains in the pool with positive
count, and a paired release undoes the increment — removing the entry
exactly when the count before the acquire was 0. -/
theorem acquire_failure_keeps_incremented_entry (evs : List PoolEvent)
    (cres : Except MbError Unit) (err : MbError)
    (hfail : (acquireStep (runPool evs) cres).2 = .error err) :
    (∃ en, (acquireStep (runPool evs) cres).1 = some en ∧
      en.refCount = poolRefCount (runPool evs) + 1 ∧ 0 < en.refCount) ∧
    poolRefCount (releaseStep (acquireStep (runPool evs) cres).1) = poolRefCount (runPool evs) ∧
    ((releaseStep (acquireStep (runPool evs) cres).1).isSome ↔ 0 < poolRefCount (runPool evs)) := by
  have hinv := runPool_inv evs
  cases hp : runPool evs with
  | none =>
    rw [hp] at hfail
    cases cres with
    | ok u => simp [acquireStep, freshEntry] at hfail
    | error e2 =>
      simp [acquireStep, freshEntry, releaseStep, poolRefCount]
  | some e0 =>
    have h0 : 0 < e0.refCount := hinv e0 hp
    rw [hp] at hfail
    obtain ⟨rc, cn, cg, q, pr⟩ := e0
    simp only at h0
    have hns : ¬ (rc + 1 - 1 ≤ 0) := by omega
    cases cn with
    | true => simp [acquireStep] at hfail
    | false =>
      cases cg with
      | true => simp [acquireStep] at hfail
      | false =>
        cases cres with
        | ok u => simp [acquireStep] at hfail
        | error e2 =>
          refine ⟨⟨⟨rc + 1, false, false, q, pr⟩, ?_, ?_, ?_⟩, ?_, ?_⟩
          · simp [acquireStep]
          · simp [poolRefCount]
          · simp
            omega
          · have hrc : ¬ rc ≤ 0 := by omega
            simp [acquireStep, releaseStep, hns, hrc, poolRefCount]
          · have hrc : ¬ rc ≤ 0 := by omega
            simp [acquireStep, releaseStep, hns, hrc, poolRefCount]
            omega

/-- Witness for C10: from the empty pool, an acquire whose connect attempt
times out leaves an entry with reference count 1; releasing removes it. -/
theorem acquire_failure_keeps_incremented_entry_witness :
    (∃ en, (acquireStep (runPool []) (.error .connectTimeout)).1 = some en ∧
      en.refCount = poolRefCount (runPool []) + 1 ∧ 0 < en.refCount) ∧
    poolRefCount (releaseStep (acquireStep (runPool []) (.error .connectTimeout)).1)
      = poolRefCount (runPool []) ∧
    ((releaseStep (acquireStep (runPool []) (.error .connectTimeout)).1).isSome ↔
      0 < poolRefCount (runPool [])) :=
  acquire_failure_keeps_incremented_entry [] (.error .connectTimeout) .connectTimeout (by rfl)

/- ### Operation queue / drain loop (`processQueue`) -/

/-- Outcome of racing one queued operation's underlying transport call
against the fixed per-operation timer: it settles with a value before the
timer fires, it rejects before the timer fires, or it never settles and
the timer wins. -/
inductive OpOutcome where
  | settles (v : Nat)
  | fails (e : MbError)
  | hangs
  deriving Repr, DecidableEq

/-- One queued operation as seen by the drain loop: its identifier, the
target unit id bound onto the shared client before it runs, and the
outcome of its transport call (the transport answers each request in
receipt order, so the outcome is the operation's own). -/
structure DrainOp where
  opId : Nat
  slaveId : Nat
  outcome : OpOutcome
  deriving Repr, DecidableEq

/-- Result of `Promise.race([op.execute(client), timer])` for one
operation: a hang is rejected with OperationTimeout when the fixed timer
fires. -/
def settleOp : OpOutcome → Except MbError Nat
  | .settles v => .ok v
  | .fails e => .error e
  | .hangs => .error .operationTimeout

/-- The `while` body of `processQueue`: while the queue is non-empty and
the entry remains connected, shift the oldest operation, bind its unit
id onto the shared client, race it against the timer, settle its caller,
and continue.  Returns the settled (operation, result) pairs in the
order the loop delivered them, together with the final bound unit id. -/
def drainGo (ops : List DrainOp) (connected : Bool) (unitId : Nat) :
    List (Nat × Except MbError Nat) × Nat :=
  match ops with
  | [] => ([], unitId)
  | op :: rest =>
    if connected then
      let res := settleOp op.outcome
      let tail := drainGo rest connected op.slaveId
      ((op.opId, res) :: tail.1, tail.2)
    else
      ([], unitId)

theorem drainGo_map (ops : List DrainOp) (unitId : Nat) :
    (drainGo ops true unitId).1 = ops.map (fun op => (op.opId, settleOp op.outcome)) := by
  induction ops generalizing unitId with
  | nil => rfl
  | cons op rest ih => simp [drainGo, ih]

/-- C3: the drain loop settles the queued operations in exactly their
submission order — strict FIFO, no priority, no reordering — and each
caller's result is the settled result of its own operation (the transport
answering requests in receipt order is what `settleOp` encodes). -/
theorem drain_fifo_own_results (ops : List DrainOp) (unitId : Nat) :
    (drainGo ops true unitId).1 = ops.map (fun op => (op.opId, settleOp op.outcome)) ∧
    ((drainGo ops true unitId).1.map Prod.fst = ops.map DrainOp.opId) := by
  refine ⟨drainGo_map ops unitId, ?_⟩
  rw [drainGo_map ops unitId]
  simp

/-- C4: an operation whose underlying call never settles is rejected with
OperationTimeout after the fixed 5-second per-operation timeout, and every
operation queued after it on the same connection is still executed with
its own result — a single hang never stalls the queue or rejects any other
queued operation. -/
theorem drain_timeout_does_not_stall (pre post : List DrainOp) (op : DrainOp)
    (unitId : Nat) (hh : op.outcome = .hangs) :
    (drainGo (pre ++ op :: post) true unitId).1 =
      (drainGo pre true unitId).1 ++
        (op.opId, Except.error MbError.operationTimeout) :: (drainGo post true unitId).1 ∧
    OPERATION_TIMEOUT = 5000 := by
  constructor
  · rw [drainGo_map, drainGo_map, drainGo_map]
    simp [hh, settleOp]
  · rfl

/-- Witness for C4: a hanging operation between two settling ones is
rejected with OperationTimeout while both neighbours deliver their own
results. -/
theorem drain_timeout_does_not_stall_witness :
    (drainGo [⟨0, 101, .settles 7⟩, ⟨1, 102, .hangs⟩, ⟨2, 103, .settles 9⟩] true 1).1 =
      (drainGo [⟨0, 101, .settles 7⟩] true 1).1 ++
        (1, Except.error MbError.operationTimeout) :: (drainGo [⟨2, 103, .settles 9⟩] true 1).1 ∧
    OPERATION_TIMEOUT = 5000 :=
  drain_timeout_does_not_stall [⟨0, 101, .settles 7⟩] [⟨2, 103, .settles 9⟩]
    ⟨1, 102, .hangs⟩ 1 (by rfl)

/- ### Protocol codec (`ModbusHelpers`) -/

/-- Register address constants from ModbusHelpers (0-based, FC3). -/
def REG_CURRENT_L1 : Nat := 2999

def REG_VOLTAGE_LN_1 : Nat := 3027

def REG_VOLTAGE_LL_1 : Nat := 3019

def REG_POWER_L1 : Nat := 3053

def REG_POWER_FACTOR : Nat := 3083

def REG_FREQUENCY : Nat := 3109

def REG_TEMPERATURE : Nat := 3131

def REG_ENERGY_IMPORTED : Nat := 3207

def REG_ENERGY_EXPORTED : Nat := 3211

def REG_DEVICE_TYPE : Nat := 31024

def REG_DEVICE_NAME : Nat := 31000

/-- A response payload (`valuesAsBuffer`): a list of bytes. -/
abbrev ByteBuf := List Nat

/-- A Modbus client view: a read of `count` holding registers starting at
`addr` yields a response payload or a transport/protocol failure.  This
stands for `client.readHoldingRegisters(addr, count)` followed by
`.response.body.valuesAsBuffer`. -/
abbrev RegClient := Nat → Nat → Except MbError ByteBuf

/-- Node's `Buffer.readUInt16BE`: two big-endian bytes, throwing (modelled
as ProtocolError, the spec's name for malformed-payload failures) when the
buffer is too short. -/
def readUInt16BE (buf : ByteBuf) (off : Nat) : Except MbError Nat :=
  if off + 2 ≤ buf.length then
    .ok (buf.getD off 0 * 256 + buf.getD (off + 1) 0)
  else .error .protocolError

/-- Big-endian accumulation of `len` bytes starting at `off`. -/
def beBytes (buf : ByteBuf) (off len : Nat) : Nat :=
  (List.range len).foldl (fun acc i => acc * 256 + buf.getD (off + i) 0) 0

/-- Two's-complement reading of a 64-bit unsigned value. -/
def toSigned64 (u : Nat) : Int :=
  if u < 2 ^ 63 then (u : Int) else (u : Int) - 2 ^ 64

/-- Node's `Buffer.readBigInt64BE`: an 8-byte big-endian signed integer,
throwing (ProtocolError) when fewer than 8 bytes are available. -/
def readBigInt64BE (buf : ByteBuf) (off : Nat) : Except MbError Int :=
  if off + 8 ≤ buf.length then .ok (toSigned64 (beBytes buf off 8))
  else .error .protocolError

/-- Node's `Buffer.readFloatBE`, throwing (ProtocolError) when fewer than
4 bytes are available.  The value is carried as the raw 32-bit big-endian
payload: no verified property inspects the numeric interpretation of a
float field, only the integer energy counters are interpreted. -/
def readFloatBE (buf : ByteBuf) (off : Nat) : Except MbError Nat :=
  if off + 4 ≤ buf.length then .ok (beBytes buf off 4)
  else .error .protocolError

/-- Voltage reference mode (`'L-N' | 'L-L'`). -/
inductive VoltageMode where
  | LN
  | LL
  deriving Repr, DecidableEq

/-- Decoded energy poll (`EnergyPollResult`).  Float fields carry the raw
32-bit payloads; the energy counters carry the exact value of
`Number(readBigInt64BE(...)) / 1000` as a rational. -/
structure EnergyPollResult where
  currentL1 : Nat
  currentL2 : Nat
  currentL3 : Nat
  voltagePh1 : Nat
  voltagePh2 : Nat
  voltagePh3 : Nat
  powerL1 : Nat
  powerL2 : Nat
  powerL3 : Nat
  totalPower : Nat
  powerFactor : Nat
  frequency : Nat
  temperature : Nat
  energyImported : ℚ
  energyExported : ℚ
  deriving Repr, DecidableEq

/-- `readAllRegisters(client, voltageMode)`: the eight sequential holding
register reads of an energy-device poll, then the decode of each field in
the order the source's object literal evaluates them.  Any transport
failure or undersized payload rejects the whole poll. -/
def readAllRegisters (client : RegClient) (voltageMode : VoltageMode) :
    Except MbError EnergyPollResult := do
  let voltStart := if voltageMode = VoltageMode.LN then REG_VOLTAGE_LN_1 else REG_VOLTAGE_LL_1
  let currBuf ← client REG_CURRENT_L1 6
  let voltBuf ← client voltStart 6
  let powerBuf ← client REG_POWER_L1 8
  let pfBuf ← client REG_POWER_FACTOR 2
  let freqBuf ← client REG_FREQUENCY 2
  let tempBuf ← client REG_TEMPERATURE 2
  let importBuf ← client REG_ENERGY_IMPORTED 4
  let exportBuf ← client REG_ENERGY_EXPORTED 4
  let currentL1 ← readFloatBE currBuf 0
  let currentL2 ← readFloatBE currBuf 4
  let currentL3 ← readFloatBE currBuf 8
  let voltagePh1 ← readFloatBE voltBuf 0
  let voltagePh2 ← readFloatBE voltBuf 4
  let voltagePh3 ← readFloatBE voltBuf 8
  let powerL1 ← readFloatBE powerBuf 0
  let powerL2 ← readFloatBE powerBuf 4
  let powerL3 ← readFloatBE powerBuf 8
  let totalPower ← readFloatBE powerBuf 12
  let powerFactor ← readFloatBE pfBuf 0
  let frequency ← readFloatBE freqBuf 0
  let temperature ← readFloatBE tempBuf 0
  let ei ← readBigInt64BE importBuf 0
  let ee ← readBigInt64BE exportBuf 0
  return { currentL1 := currentL1, currentL2 := currentL2, currentL3 := currentL3,
           voltagePh1 := voltagePh1, voltagePh2 := voltagePh2, voltagePh3 := voltagePh3,
           powerL1 := powerL1, powerL2 := powerL2, powerL3 := powerL3,
           totalPower := totalPower, powerFactor := powerFactor,
           frequency := frequency, temperature := temperature,
           energyImported := (ei : ℚ) / 1000, energyExported := (ee : ℚ) / 1000 }

/-- `readDeviceType(client)`: one register at 31024, decoded big-endian. -/
def readDeviceType (client : RegClient) : Except MbError Nat := do
  let buf ← client REG_DEVICE_TYPE 1
  readUInt16BE buf 0

/-- Characters of a payload up to the first NUL byte. -/
def asciiChars : ByteBuf → List Char
  | [] => []
  | b :: rest => if b = 0 then [] else Char.ofNat b :: asciiChars rest

/-- `parseAsciiBuffer`: null-terminated ASCII, trimmed. -/
def parseAsciiBuffer (buf : ByteBuf) : String :=
  (String.mk (asciiChars buf)).trim

/-- `readDeviceName(client)`: 10 registers at 31000 parsed as ASCII. -/
def readDeviceName (client : RegClient) : Except MbError String := do
  let buf ← client REG_DEVICE_NAME 10
  pure (parseAsciiBuffer buf)

/-- Dissection of one successful Except bind. -/
theorem except_bind_ok {α β : Type} {x : Except MbError α} {f : α → Except MbError β} {b : β}
    (h : x >>= f = .ok b) : ∃ a, x = .ok a ∧ f a = .ok b := by
  cases x with
  | error e => simp [Bind.bind, Except.bind] at h
  | ok a => exact ⟨a, rfl, by simpa [Bind.bind, Except.bind] using h⟩

/-- A simulated gateway for the energy decode: the two energy counters
answer with the 8-byte big-endian block valued 1 000 000, every other
read answers with a correctly sized all-zero payload. -/
def energyClient : RegClient := fun addr count =>
  if addr = REG_ENERGY_IMPORTED ∨ addr = REG_ENERGY_EXPORTED then
    .ok [0, 0, 0, 0, 0, 15, 66, 64]
  else
    .ok (List.replicate (2 * count) 0)

/-- The poll result of `energyClient`: all float payloads zero, both
energy counters decoded as 1 000 000 / 1000. -/
def energyResult : EnergyPollResult :=
  { currentL1 := 0, currentL2 := 0, currentL3 := 0,
    voltagePh1 := 0, voltagePh2 := 0, voltagePh3 := 0,
    powerL1 := 0, powerL2 := 0, powerL3 := 0, totalPower := 0,
    powerFactor := 0, frequency := 0, temperature := 0,
    energyImported := (1000000 : ℚ) / 1000,
    energyExported := (1000000 : ℚ) / 1000 }

/-- C6: on every successful energy-device poll, the imported and exported
energy fields are the 8-byte big-endian signed integer of the respective
register block divided by 1000; in particular, over a gateway whose
energy blocks hold the value 1 000 000, both fields decode to exactly
1000. -/
theorem energy_fields_big_endian_div_1000 :
    (∀ (client : RegClient) (mode : VoltageMode) (r : EnergyPollResult),
      readAllRegisters client mode = .ok r →
      ∃ bi be vi ve, client REG_ENERGY_IMPORTED 4 = .ok bi ∧
        client REG_ENERGY_EXPORTED 4 = .ok be ∧
        readBigInt64BE bi 0 = .ok vi ∧ readBigInt64BE be 0 = .ok ve ∧
        r.energyImported = (vi : ℚ) / 1000 ∧ r.energyExported = (ve : ℚ) / 1000) ∧
    (∃ r, readAllRegisters energyClient VoltageMode.LN = .ok r ∧
      r.energyImported = 1000 ∧ r.energyExported = 1000) := by
  constructor
  · intro client mode r h
    unfold readAllRegisters at h
    obtain ⟨currBuf, hb1, h⟩ := except_bind_ok h
    obtain ⟨voltBuf, hb2, h⟩ := except_bind_ok h
    obtain ⟨powerBuf, hb3, h⟩ := except_bind_ok h
    obtain ⟨pfBuf, hb4, h⟩ := except_bind_ok h
    obtain ⟨freqBuf, hb5, h⟩ := except_bind_ok h
    obtain ⟨tempBuf, hb6, h⟩ := except_bind_ok h
    obtain ⟨importBuf, hb7, h⟩ := except_bind_ok h
    obtain ⟨exportBuf, hb8, h⟩ := except_bind_ok h
    obtain ⟨c1, hf1, h⟩ := except_bind_ok h
    obtain ⟨c2, hf2, h⟩ := except_bind_ok h
    obtain ⟨c3, hf3, h⟩ := except_bind_ok h
    obtain ⟨v1, hf4, h⟩ := except_bind_ok h
    obtain ⟨v2, hf5, h⟩ := except_bind_ok h
    obtain ⟨v3, hf6, h⟩ := except_bind_ok h
    obtain ⟨p1, hf7, h⟩ := except_bind_ok h
    obtain ⟨p2, hf8, h⟩ := except_bind_ok h
    obtain ⟨p3, hf9, h⟩ := except_bind_ok h
    obtain ⟨tp, hf10, h⟩ := except_bind_ok h
    obtain ⟨pf, hf11, h⟩ := except_bind_ok h
    obtain ⟨fr, hf12, h⟩ := except_bind_ok h
    obtain ⟨tm, hf13, h⟩ := except_bind_ok h
    obtain ⟨ei, hei, h⟩ := except_bind_ok h
    obtain ⟨ee, hee, h⟩ := except_bind_ok h
    simp only [pure, Except.pure, Except.ok.injEq] at h
    subst h
    exact ⟨importBuf, exportBuf, ei, ee, hb7, hb8, hei, hee, rfl, rfl⟩
  · exact ⟨energyResult, by rfl, by norm_num [energyResult], by norm_num [energyResult]⟩

/-- Witness for C6: the first conjunct applied to the simulated gateway,
naming the import/export payloads and their decoded values. -/
theorem energy_fields_big_endian_div_1000_witness :
    ∃ bi be vi ve, energyClient REG_ENERGY_IMPORTED 4 = .ok bi ∧
      energyClient REG_ENERGY_EXPORTED 4 = .ok be ∧
      readBigInt64BE bi 0 = .ok vi ∧ readBigInt64BE be 0 = .ok ve ∧
      energyResult.energyImported = (vi : ℚ) / 1000 ∧
      energyResult.energyExported = (ve : ℚ) / 1000 :=
  energy_fields_big_endian_div_1000.1 energyClient VoltageMode.LN energyResult (by rfl)

/-- A simulated gateway whose energy-import read answers with only 6
bytes (3 registers worth) instead of the 8 the 64-bit counter needs. -/
def shortImportClient : RegClient := fun addr count =>
  if addr = REG_ENERGY_IMPORTED then .ok [0, 0, 0, 0, 0, 0]
  else .ok (List.replicate (2 * count) 0)

/-- C9: a response payload shorter than the register block the codec
expects — fewer than 4 bytes for a 32-bit float field, fewer than 8 bytes
for a 64-bit energy counter, fewer than 2 bytes for the device-type
register — makes the decode fail with ProtocolError rather than return a
zeroed or truncated value; in particular a whole energy poll whose import
block is undersized fails with ProtocolError. -/
theorem undersized_payload_protocolError :
    (∀ (buf : ByteBuf) (off : Nat), buf.length < off + 4 →
      readFloatBE buf off = .error .protocolError) ∧
    (∀ (buf : ByteBuf) (off : Nat), buf.length < off + 8 →
      readBigInt64BE buf off = .error .protocolError) ∧
    (∀ (buf : ByteBuf) (off : Nat), buf.length < off + 2 →
      readUInt16BE buf off = .error .protocolError) ∧
    (∀ (client : RegClient) (buf : ByteBuf), client REG_DEVICE_TYPE 1 = .ok buf →
      buf.length < 2 → readDeviceType client = .error .protocolError) ∧
    readAllRegisters shortImportClient VoltageMode.LN = .error .protocolError := by
  refine ⟨?_, ?_, ?_, ?_, by rfl⟩
  · intro buf off hlen
    unfold readFloatBE
    rw [if_neg (by omega)]
  · intro buf off hlen
    unfold readBigInt64BE
    rw [if_neg (by omega)]
  · intro buf off hlen
    unfold readUInt16BE
    rw [if_neg (by omega)]
  · intro client buf hbuf hlen
    unfold readDeviceType
    rw [hbuf]
    simp only [Bind.bind, Except.bind]
    unfold readUInt16BE
    rw [if_neg (by omega)]

/-- Witness for C9: undersized concrete payloads for each field kind. -/
theorem undersized_payload_protocolError_witness :
    readFloatBE [0, 0] 0 = .error .protocolError ∧
    readBigInt64BE [0, 0, 0, 0, 0, 0] 0 = .error .protocolError ∧
    readUInt16BE [0] 0 = .error .protocolError ∧
    readDeviceType (fun _ _ => .ok [0]) = .error .protocolError :=
  ⟨undersized_payload_protocolError.1 [0, 0] 0 (by decide),
   undersized_payload_protocolError.2.1 [0, 0, 0, 0, 0, 0] 0 (by decide),
   undersized_payload_protocolError.2.2.1 [0] 0 (by decide),
   undersized_payload_protocolError.2.2.2.1 (fun _ _ => .ok [0]) [0] (by rfl) (by decide)⟩

/- ### Model registry (`PowerTagRegistry`) -/

/-- One static registry entry (`PowerTagModelConfig`). -/
structure PowerTagModelConfig where
  typeId : Nat
  model : String
  name : String
  phases : String
  voltageMode : VoltageMode
  phaseCount : Nat
  deriving Repr, DecidableEq

/-- The static `POWERTAG_MODELS` map, keyed by device type code. -/
def POWERTAG_MODELS : List (Nat × PowerTagModelConfig) := [
  (41, ⟨41, "A9MEM1520", "PowerTag M63 1P", "1P", .LN, 1⟩),
  (42, ⟨42, "A9MEM1521", "PowerTag M63 1P+N Top", "1P+N", .LN, 1⟩),
  (43, ⟨43, "A9MEM1522", "PowerTag M63 1P+N Bottom", "1P+N", .LN, 1⟩),
  (44, ⟨44, "A9MEM1540", "PowerTag M63 3P", "3P", .LL, 3⟩),
  (45, ⟨45, "A9MEM1541", "PowerTag M63 3P+N Top", "3P+N", .LN, 3⟩),
  (46, ⟨46, "A9MEM1542", "PowerTag M63 3P+N Bottom", "3P+N", .LN, 3⟩),
  (81, ⟨81, "A9MEM1560", "PowerTag F63 1P+N", "1P+N", .LN, 1⟩),
  (82, ⟨82, "A9MEM1561", "PowerTag P63 1P+N Top", "1P+N", .LN, 1⟩),
  (83, ⟨83, "A9MEM1562", "PowerTag P63 1P+N Bottom", "1P+N", .LN, 1⟩),
  (84, ⟨84, "A9MEM1563", "PowerTag P63 1P+N Bottom", "1P+N", .LN, 1⟩),
  (85, ⟨85, "A9MEM1570", "PowerTag F63 3P+N", "3P+N", .LL, 3⟩),
  (86, ⟨86, "A9MEM1571", "PowerTag P63 3P+N Top", "3P+N", .LN, 3⟩),
  (87, ⟨87, "A9MEM1572", "PowerTag P63 3P+N Bottom", "3P+N", .LN, 3⟩)]

/-- `POWERTAG_MODELS.get(typeId)`. -/
def powerTagModelsGet (typeId : Nat) : Option PowerTagModelConfig :=
  (POWERTAG_MODELS.find? (fun p => p.1 = typeId)).map Prod.snd

/-- `getCapabilitiesForModel`: base capabilities plus per-phase
sub-capabilities pushed in loop order. -/
def getCapabilitiesForModel (config : PowerTagModelConfig) : List String :=
  let caps := ["measure_power", "meter_power", "measure_power_factor",
               "measure_temperature", "measure_frequency"]
  let phases := if config.phaseCount = 1 then ["l1"] else ["l1", "l2", "l3"]
  phases.foldl (fun acc ph =>
    acc ++ ["measure_voltage." ++ ph, "measure_current." ++ ph, "measure_power." ++ ph]) caps

/- ### Discovery scanner (PowerTag driver) -/

/-- Gateway pairing settings relevant to discovery. -/
structure PowerTagSettings where
  address : String
  port : Nat
  polling : Nat
  deriving Repr, DecidableEq

/-- One `DiscoveredDevice` descriptor emitted by the scanner. -/
structure DiscoveredDevice where
  name : String
  dataId : String
  address : String
  port : Nat
  polling : Nat
  slaveId : Nat
  typeId : Nat
  model : String
  capabilities : List String
  deriving Repr, DecidableEq

/-- The device object pushed by `scanSlaveRange` on a recognized type. -/
def mkDiscoveredDevice (settings : PowerTagSettings) (slaveId typeId : Nat)
    (config : PowerTagModelConfig) (devName : String) : DiscoveredDevice :=
  { name := devName,
    dataId := settings.address ++ ":" ++ toString settings.port ++ ":" ++ toString slaveId,
    address := settings.address, port := settings.port, polling := settings.polling,
    slaveId := slaveId, typeId := typeId, model := config.model,
    capabilities := getCapabilitiesForModel config }

/-- A transient discovery transport: for each probed unit id, a register
client (the scanner rebinds `_unitId` before each probe, so the reads of
one candidate all target that unit). -/
abbrev ScanClient := Nat → RegClient

/-- Body of the `for` loop of `scanSlaveRange`, one candidate unit id per
list element, carrying the accumulated devices and the consecutive-timeout
count.  A successful device-type probe resets the count; a failed probe
increments it and, once the count has reached 10 with at least one device
already found, breaks out of the range.  Returns the accumulated devices
and whether the loop broke early. -/
def scanGo (client : ScanClient) (settings : PowerTagSettings) :
    List Nat → List DiscoveredDevice → Nat → List DiscoveredDevice × Bool
  | [], devs, _ => (devs, false)
  | slaveId :: rest, devs, ct =>
    match readDeviceType (client slaveId) with
    | .ok typeId =>
      if typeId = 0 ∨ typeId = 65535 then
        scanGo client settings rest devs 0
      else
        match powerTagModelsGet typeId with
        | none => scanGo client settings rest devs 0
        | some config =>
          let deviceName := match readDeviceName (client slaveId) with
            | .ok s => s
            | .error _ => ""
          let finalName := if deviceName = "" then
              config.name ++ " (" ++ toString slaveId ++ ")"
            else deviceName
          scanGo client settings rest
            (devs ++ [mkDiscoveredDevice settings slaveId typeId config finalName]) 0
    | .error _ =>
      if 10 ≤ ct + 1 ∧ 0 < devs.length then (devs, true)
      else scanGo client settings rest devs (ct + 1)

/-- `scanSlaveRange(client, settings, startId, endId)`: scan the ids
`startId ≤ id < endId` with an empty device list and timeout count 0. -/
def scanSlaveRange (client : ScanClient) (settings : PowerTagSettings)
    (startId endId : Nat) : List DiscoveredDevice × Bool :=
  scanGo client settings (List.range' startId (endId - startId)) [] 0

/-- `discoverDevices(settings)`: scan the Smartlink range 150-169 first,
then fall back to the Panel Server range 100-149 when it found nothing. -/
def discoverDevices (client : ScanClient) (settings : PowerTagSettings) :
    List DiscoveredDevice :=
  let devices := (scanSlaveRange client settings 150 170).1
  if devices.length = 0 then (scanSlaveRange client settings 100 150).1
  else devices

/-- Sample pairing settings for the simulated gateways. -/
def simSettings : PowerTagSettings :=
  { address := "192.168.1.10", port := 502, polling := 30 }

/-- One 16-bit register value as a 2-byte big-endian payload. -/
def u16buf (v : Nat) : ByteBuf := [v / 256, v % 256]

/-- Simulated gateway for discovery: valid type codes only at unit ids
101 (type 41) and 105 (type 81), the absence sentinel 65535 everywhere
else; every non-type read (such as the name register) fails. -/
def simGateway : ScanClient := fun unitId addr _count =>
  if addr = REG_DEVICE_TYPE then
    .ok (u16buf (if unitId = 101 then 41 else if unitId = 105 then 81 else 65535))
  else .error .operationTimeout

/-- Same simulated gateway but with an unrecognized type code 99 at unit
id 103. -/
def simGatewayUnknown : ScanClient := fun unitId addr _count =>
  if addr = REG_DEVICE_TYPE then
    .ok (u16buf (if unitId = 101 then 41 else if unitId = 103 then 99
      else if unitId = 105 then 81 else 65535))
  else .error .operationTimeout

/-- C7: discovery skips ids whose device-type register reads the absence
sentinels 0 or 65535 and skips unrecognized type codes without failing
the scan; over the simulated gateway with valid type codes only at unit
ids 101 and 105 it returns exactly two DiscoveredDevice entries whose
model strings and synthesized names come from the type-code registry, and
inserting an unrecognized code at unit 103 changes nothing. -/
theorem discovery_two_devices_skip_sentinels_and_unknown :
    (discoverDevices simGateway simSettings).length = 2 ∧
    (discoverDevices simGateway simSettings).map
        (fun d => (d.slaveId, d.typeId, d.model, d.name)) =
      [(101, 41, "A9MEM1520", "PowerTag M63 1P (101)"),
       (105, 81, "A9MEM1560", "PowerTag F63 1P+N (105)")] ∧
    discoverDevices simGatewayUnknown simSettings = discoverDevices simGateway simSettings :=
  ⟨by rfl, by rfl, by rfl⟩

/-- Modelled from the claim's wording for the early-exit heuristic: the
same scan loop but breaking only once the count of consecutive probe
timeouts strictly exceeds the fixed threshold of 10. -/
def scanGoSpec (client : ScanClient) (settings : PowerTagSettings) :
    List Nat → List DiscoveredDevice → Nat → List DiscoveredDevice × Bool
  | [], devs, _ => (devs, false)
  | slaveId :: rest, devs, ct =>
    match readDeviceType (client slaveId) with
    | .ok typeId =>
      if typeId = 0 ∨ typeId = 65535 then
        scanGoSpec client settings rest devs 0
      else
        match powerTagModelsGet typeId with
        | none => scanGoSpec client settings rest devs 0
        | some config =>
          let deviceName := match readDeviceName (client slaveId) with
            | .ok s => s
            | .error _ => ""
          let finalName := if deviceName = "" then
              config.name ++ " (" ++ toString slaveId ++ ")"
            else deviceName
          scanGoSpec client settings rest
            (devs ++ [mkDiscoveredDevice settings slaveId typeId config finalName]) 0
    | .error _ =>
      if 10 < ct + 1 ∧ 0 < devs.length then (devs, true)
      else scanGoSpec client settings rest devs (ct + 1)

/-- Range wrapper for the claim-worded loop. -/
def scanSlaveRangeSpec (client : ScanClient) (settings : PowerTagSettings)
    (startId endId : Nat) : List DiscoveredDevice × Bool :=
  scanGoSpec client settings (List.range' startId (endId - startId)) [] 0

/-- Gateway refuting the exceeds-10 reading of the early exit: a device
at unit 150, probe timeouts at units 151-160, another device at unit 161,
sentinel elsewhere. -/
def cexGateway : ScanClient := fun unitId addr _count =>
  if addr = REG_DEVICE_TYPE then
    if unitId = 150 then .ok (u16buf 41)
    else if 151 ≤ unitId ∧ unitId ≤ 160 then .error .operationTimeout
    else if unitId = 161 then .ok (u16buf 81)
    else .ok (u16buf 65535)
  else .error .operationTimeout

/-- Counterexample to C8 as stated: on `cexGateway` the code's scan stops
early at the 10th consecutive timeout — a count that reaches but does not
exceed 10 — missing the device at unit 161 that a loop stopping only when
the count exceeds 10 (the claim's wording, `scanGoSpec`) does find. -/
theorem scan_early_exit_at_10_cex :
    (scanSlaveRange cexGateway simSettings 150 170).2 = true ∧
    (scanSlaveRange cexGateway simSettings 150 170).1.map DiscoveredDevice.slaveId = [150] ∧
    (scanSlaveRangeSpec cexGateway simSettings 150 170).2 = false ∧
    (scanSlaveRangeSpec cexGateway simSettings 150 170).1.map DiscoveredDevice.slaveId
      = [150, 161] :=
  ⟨by rfl, by rfl, by rfl, by rfl⟩

/-- C8 (amended): once at least one device has been found the scan of the
current range stops early exactly when the count of consecutive probe
timeouts reaches 10 (not strictly exceeds 10); any successful probe
response, absence sentinels included, makes the next step independent of
the previous count (it is reset to zero); and the scan never stops early
while zero devices have been found. -/
theorem scan_early_exit_reaches_10 :
    (∀ (client : ScanClient) (settings : PowerTagSettings) (slaveId : Nat)
      (rest : List Nat) (devs : List DiscoveredDevice) (ct : Nat) (e : MbError),
      readDeviceType (client slaveId) = .error e →
      scanGo client settings (slaveId :: rest) devs ct =
        if 10 ≤ ct + 1 ∧ 0 < devs.length then (devs, true)
        else scanGo client settings rest devs (ct + 1)) ∧
    (∀ (client : ScanClient) (settings : PowerTagSettings) (slaveId : Nat)
      (rest : List Nat) (devs : List DiscoveredDevice) (ct ct' : Nat) (v : Nat),
      readDeviceType (client slaveId) = .ok v →
      scanGo client settings (slaveId :: rest) devs ct =
        scanGo client settings (slaveId :: rest) devs ct') ∧
    (∀ (client : ScanClient) (settings : PowerTagSettings) (ids : List Nat)
      (devs : List DiscoveredDevice) (ct : Nat),
      (scanGo client settings ids devs ct).2 = true →
      0 < (scanGo client settings ids devs ct).1.length) := by
  refine ⟨?_, ?_, ?_⟩
  · intro client settings slaveId rest devs ct e h
    rw [scanGo.eq_def]
    simp only [h]
  · intro client settings slaveId rest devs ct ct' v h
    conv_lhs => rw [scanGo.eq_def]
    conv_rhs => rw [scanGo.eq_def]
    simp only [h]
  · intro client settings ids
    induction ids with
    | nil => intro devs ct h; simp [scanGo] at h
    | cons slaveId rest ih =>
      intro devs ct h
      rw [scanGo.eq_def] at h ⊢
      cases hrd : readDeviceType (client slaveId) with
      | ok v =>
        simp only [hrd] at h ⊢
        by_cases hs : v = 0 ∨ v = 65535
        · simp only [if_pos hs] at h ⊢
          exact ih _ _ h
        · simp only [if_neg hs] at h ⊢
          cases hm : powerTagModelsGet v with
          | none =>
            simp only [hm] at h ⊢
            exact ih _ _ h
          | some config =>
            simp only [hm] at h ⊢
            exact ih _ _ h
      | error e =>
        simp only [hrd] at h ⊢
        by_cases hb : 10 ≤ ct + 1 ∧ 0 < devs.length
        · simp only [if_pos hb] at h ⊢
          exact hb.2
        · simp only [if_neg hb] at h ⊢
          exact ih _ _ h

/-- Witness for C8 (amended): each part applied on `cexGateway` — a
timed-out probe at unit 151 from count 0 continues with count 1, the
successful probe at unit 150 makes counts 5 and 0 indistinguishable, and
the early-stopped full range scan has found a device. -/
theorem scan_early_exit_reaches_10_witness :
    (scanGo cexGateway simSettings (151 :: []) [] 0 =
      if 10 ≤ 0 + 1 ∧ 0 < ([] : List DiscoveredDevice).length then ([], true)
      else scanGo cexGateway simSettings [] [] (0 + 1)) ∧
    (scanGo cexGateway simSettings (150 :: []) [] 5 =
      scanGo cexGateway simSettings (150 :: []) [] 0) ∧
    0 < (scanGo cexGateway simSettings (List.range' 150 20) [] 0).1.length :=
  ⟨scan_early_exit_reaches_10.1 cexGateway simSettings 151 [] [] 0 .operationTimeout (by rfl),
   scan_early_exit_reaches_10.2.1 cexGateway simSettings 150 [] [] 5 0 41 (by rfl),
   scan_early_exit_reaches_10.2.2 cexGateway simSettings (List.range' 150 20) [] 0 (by rfl)⟩

end EcoStruxure
